import Mathlib

/-!
Verification development for the bosh-agent metadata-service bootstrap client
and the lgpo policy-application helpers.

The HTTP metadata service (its retryable HTTP client, user-data decoder and
network-bootstrap sequencing) is modelled from the specification document,
since only its test file ships in this repository snapshot; the lgpo helpers
(`FindGitExe`, `ApplyPolicy`, `RestartComputer`) are embedded directly from
`lgpo/lgpo.go`.
-/

set_option maxRecDepth 4000

/-- Substring containment on strings: `sub` occurs somewhere inside `s`. -/
def containsSubstr (s sub : String) : Prop :=
  ∃ a b : String, s = a ++ sub ++ b

/-- A JSON value, restricted to the grammar the user-data documents use. -/
inductive Json where
  | jnull
  | jbool (b : Bool)
  | jnum (n : Int)
  | jstr (s : String)
  | jarr (elems : List Json)
  | jobj (fields : List (String × Json))
deriving Repr

/-- Skip JSON whitespace characters. -/
def skipWs : List Char → List Char
  | c :: cs => if c = ' ' ∨ c = '\n' ∨ c = '\t' ∨ c = '\r' then skipWs cs else c :: cs
  | [] => []

/-- Parse the remainder of a JSON string literal (after the opening quote),
returning the string contents and the rest of the input. Supports the escapes
the user-data fixtures need. -/
def parseStrRest : List Char → Option (List Char × List Char)
  | [] => none
  | '"' :: rest => some ([], rest)
  | '\\' :: e :: rest =>
    match parseStrRest rest with
    | none => none
    | some (body, rem) =>
      match e with
      | '"' => some ('"' :: body, rem)
      | '\\' => some ('\\' :: body, rem)
      | '/' => some ('/' :: body, rem)
      | 'n' => some ('\n' :: body, rem)
      | 't' => some ('\t' :: body, rem)
      | 'r' => some ('\r' :: body, rem)
      | _ => none
  | c :: rest =>
    match parseStrRest rest with
    | none => none
    | some (body, rem) => some (c :: body, rem)

/-- Parse a run of decimal digits into a natural number; fails on empty run. -/
def parseDigits (acc : Nat) : List Char → Option (Nat × List Char)
  | c :: cs =>
    if c.isDigit then
      match parseDigits (acc * 10 + (c.toNat - 48)) cs with
      | some r => some r
      | none => some (acc * 10 + (c.toNat - 48), cs)
    else none
  | [] => none

mutual

/-- Parse one JSON value; `fuel` bounds nesting depth. -/
def parseJsonVal (fuel : Nat) (input : List Char) : Option (Json × List Char) :=
  match fuel with
  | 0 => none
  | fuel + 1 =>
    match skipWs input with
    | [] => none
    | c :: cs =>
      if c = '"' then
        match parseStrRest cs with
        | some (body, rem) => some (.jstr (String.mk body), rem)
        | none => none
      else if c = '{' then
        match skipWs cs with
        | '}' :: rem => some (.jobj [], rem)
        | rest =>
          match parseObjFields fuel rest with
          | some (fields, rem) => some (.jobj fields, rem)
          | none => none
      else if c = '[' then
        match skipWs cs with
        | ']' :: rem => some (.jarr [], rem)
        | rest =>
          match parseArrElems fuel rest with
          | some (elems, rem) => some (.jarr elems, rem)
          | none => none
      else if c = 't' then
        match cs with
        | 'r' :: 'u' :: 'e' :: rem => some (.jbool true, rem)
        | _ => none
      else if c = 'f' then
        match cs with
        | 'a' :: 'l' :: 's' :: 'e' :: rem => some (.jbool false, rem)
        | _ => none
      else if c = 'n' then
        match cs with
        | 'u' :: 'l' :: 'l' :: rem => some (.jnull, rem)
        | _ => none
      else if c = '-' then
        match parseDigits 0 cs with
        | some (n, rem) => some (.jnum (-(n : Int)), rem)
        | none => none
      else if c.isDigit then
        match parseDigits 0 (c :: cs) with
        | some (n, rem) => some (.jnum (n : Int), rem)
        | none => none
      else none

/-- Parse one or more comma-separated `"key": value` pairs followed by `}`. -/
def parseObjFields (fuel : Nat) (input : List Char) : Option (List (String × Json) × List Char) :=
  match fuel with
  | 0 => none
  | fuel + 1 =>
    match skipWs input with
    | '"' :: cs =>
      match parseStrRest cs with
      | none => none
      | some (key, afterKey) =>
        match skipWs afterKey with
        | ':' :: afterColon =>
          match parseJsonVal fuel afterColon with
          | none => none
          | some (v, afterVal) =>
            match skipWs afterVal with
            | ',' :: afterComma =>
              match parseObjFields fuel afterComma with
              | some (fields, rem) => some ((String.mk key, v) :: fields, rem)
              | none => none
            | '}' :: rem => some ([(String.mk key, v)], rem)
            | _ => none
        | _ => none
    | _ => none

/-- Parse one or more comma-separated JSON values followed by `]`. -/
def parseArrElems (fuel : Nat) (input : List Char) : Option (List Json × List Char) :=
  match fuel with
  | 0 => none
  | fuel + 1 =>
    match parseJsonVal fuel input with
    | none => none
    | some (v, afterVal) =>
      match skipWs afterVal with
      | ',' :: afterComma =>
        match parseArrElems fuel afterComma with
        | some (elems, rem) => some (v :: elems, rem)
        | none => none
      | ']' :: rem => some ([v], rem)
      | _ => none

end

/-- Parse a complete JSON document: one value and nothing but whitespace after. -/
def parseJson (s : String) : Option Json :=
  match parseJsonVal (s.length + 1) s.toList with
  | some (v, rem) => if skipWs rem = [] then some v else none
  | none => none

/-- Look up a key in a JSON object's field list (first occurrence). -/
def jsonLookup (fields : List (String × Json)) (key : String) : Option Json :=
  match fields with
  | [] => none
  | (k, v) :: rest => if k = key then some v else jsonLookup rest key

/-- The settings block of the user-data document: `agent_id` and `mbus`. -/
structure Settings where
  agentID : String
  mbus : String
deriving DecidableEq, Repr

/-- The parsed user-data document, with presence-aware optional fields as the
specification's data model prescribes. -/
structure UserDataDoc where
  registryEndpoint : Option String
  dnsServers : List String
  serverName : Option String
  settings : Option Settings
deriving DecidableEq, Repr

/-- Extract the string value of a JSON field, if it is a string. -/
def jsonAsStr : Option Json → Option String
  | some (.jstr s) => some s
  | _ => none

/-- Extract a list of strings from a JSON array of strings field. -/
def jsonAsStrList : Option Json → List String
  | some (.jarr elems) => elems.filterMap fun j =>
      match j with
      | .jstr s => some s
      | _ => none
  | _ => []

/-- Extract the object fields of a JSON field, if it is an object. -/
def jsonAsObj : Option Json → Option (List (String × Json))
  | some (.jobj fields) => some fields
  | _ => none

/-- Modelled from the spec: unmarshal a JSON value into the user-data document
schema (`registry.endpoint`, `dns.nameserver`, `server.name`, `settings`),
ignoring unknown fields; only a top-level object is accepted. -/
def jsonToUserData (j : Json) : Option UserDataDoc :=
  match j with
  | .jobj fields =>
    some
      { registryEndpoint :=
          jsonAsStr (jsonLookup fields "registry" |> jsonAsObj |>.bind (jsonLookup · "endpoint"))
        dnsServers :=
          jsonAsStrList (jsonLookup fields "dns" |> jsonAsObj |>.bind (jsonLookup · "nameserver"))
        serverName :=
          jsonAsStr (jsonLookup fields "server" |> jsonAsObj |>.bind (jsonLookup · "name"))
        settings :=
          match jsonAsObj (jsonLookup fields "settings") with
          | some sf =>
            some { agentID := (jsonAsStr (jsonLookup sf "agent_id")).getD ""
                   mbus := (jsonAsStr (jsonLookup sf "mbus")).getD "" }
          | none => none }
  | _ => none

/-- Parse a raw body as a user-data JSON document. -/
def parseUserDataDoc (s : String) : Option UserDataDoc :=
  (parseJson s).bind jsonToUserData

/-- Value of one character of the base64 URL-safe alphabet. -/
def b64UrlCharVal (c : Char) : Option Nat :=
  if 'A' ≤ c ∧ c ≤ 'Z' then some (c.toNat - 65)
  else if 'a' ≤ c ∧ c ≤ 'z' then some (c.toNat - 97 + 26)
  else if '0' ≤ c ∧ c ≤ '9' then some (c.toNat - 48 + 52)
  else if c = '-' then some 62
  else if c = '_' then some 63
  else none

/-- Map every character to its base64 value; fails on any character outside the
URL-safe alphabet (such as `+`, `/` or the `=` padding of standard base64). -/
def b64UrlVals : List Char → Option (List Nat)
  | [] => some []
  | c :: cs =>
    match b64UrlCharVal c, b64UrlVals cs with
    | some v, some vs => some (v :: vs)
    | _, _ => none

/-- Reassemble 6-bit groups into bytes, unpadded: a trailing group of one
6-bit value is illegal, two yield one byte, three yield two. -/
def b64Bytes : List Nat → Option (List Nat)
  | [] => some []
  | [_] => none
  | [a, b] => some [a * 4 + b / 16]
  | [a, b, c] => some [a * 4 + b / 16, b % 16 * 16 + c / 4]
  | a :: b :: c :: d :: rest =>
    match b64Bytes rest with
    | some bs => some ((a * 4 + b / 16) :: (b % 16 * 16 + c / 4) :: (c % 4 * 64 + d) :: bs)
    | none => none

/-- Modelled from the spec: base64 URL-safe unpadded decoding of a body
(Go's `base64.RawURLEncoding.DecodeString`), with the decoded bytes read back
as a string. -/
def b64UrlDecode (s : String) : Except String String :=
  match b64UrlVals s.toList with
  | none => .error "illegal base64 data"
  | some vs =>
    match b64Bytes vs with
    | none => .error "illegal base64 data"
    | some bytes => .ok (String.mk (bytes.map Char.ofNat))

/-- Modelled from the spec: the user-data decoder. Try a direct JSON parse
first; only if that fails, base64 URL-safe decode and parse the decoded bytes,
with the two `DecodeError` messages of the spec. -/
def decodeUserData (body : String) : Except String UserDataDoc :=
  match parseUserDataDoc body with
  | some doc => .ok doc
  | none =>
    match b64UrlDecode body with
    | .error e => .error ("Decoding url encoded user data: " ++ e)
    | .ok text =>
      match parseUserDataDoc text with
      | some doc => .ok doc
      | none => .error ("Unmarshalling url decoded user data \x27" ++ text ++ "\x27: invalid JSON")

/-- Outcome of one HTTP attempt: a transport-level error, or a response with
status code, status text and body. -/
inductive AttemptResult where
  | transportError (msg : String)
  | response (code : Nat) (statusText : String) (body : String)
deriving DecidableEq, Repr

/-- Success means a status strictly in the 2xx range. -/
def statusIs2xx (code : Nat) : Bool := 200 ≤ code && code < 300

/-- The failure description of an exhausted request on an HTTP error response,
as produced by the request-retryable (status code and status text). -/
def requestFailedMsg (code : Nat) (statusText : String) : String :=
  "Request failed, response: Response\x7b StatusCode: " ++ toString code ++
    ", Status: \x27" ++ statusText ++ "\x27 \x7d"

/-- The failure message of one attempt, or `none` when the attempt succeeded
(2xx status). Every transport error and every non-2xx status is a failure. -/
def attemptFailure : AttemptResult → Option String
  | .transportError m => some m
  | .response code text _ => if statusIs2xx code then none else some (requestFailedMsg code text)

/-- The body of one attempt's response (empty for a transport error). -/
def attemptBody : AttemptResult → String
  | .transportError _ => ""
  | .response _ _ body => body

/-- The fixed attempt budget of the retryable HTTP client. -/
def maxAttempts : Nat := 10

/-- Modelled from the spec: the bounded retry loop of the RetryableHTTPClient.
`resp i` is the outcome of attempt `i`; `fuel` is the number of attempts still
allowed. Returns the result and the number of attempts actually made: a 2xx
attempt returns its body at once; otherwise the failure is counted and, once
the budget is exhausted, the last failure's description is reported. -/
def retryAux (resp : Nat → AttemptResult) (idx : Nat) : Nat → Except String String × Nat
  | 0 => (.error "no attempts made", 0)
  | fuel + 1 =>
    match attemptFailure (resp idx) with
    | none => (.ok (attemptBody (resp idx)), 1)
    | some msg =>
      if fuel = 0 then (.error msg, 1)
      else
        let r := retryAux resp (idx + 1) fuel
        (r.1, r.2 + 1)

/-- One logical GET: up to `maxAttempts` attempts starting from attempt 0. -/
def retryGet (resp : Nat → AttemptResult) : Except String String × Nat :=
  retryAux resp 0 maxAttempts

/-- Observable side effects of a metadata-service call. -/
inductive Effect where
  | listInterfaces
  | configureNetwork (ifaceName : String) (netType : String)
  | httpGet (url : String)
deriving DecidableEq, Repr

/-- A metadata-service instance together with the behaviour of its injected
collaborators: configuration (base URL, the three endpoint paths), the
platform's interface enumeration and dynamic-network configuration results,
the per-attempt HTTP outcomes for each URL, and the DNS resolver. -/
structure Svc where
  metadataHost : String
  userDataPath : String
  instanceIDPath : String
  sshKeysPath : String
  ifaces : Except String (List String)
  setupResult : Except String Unit
  http : String → Nat → AttemptResult
  dns : List String → String → Except String String

/-- Modelled from the spec: the check-then-act network bootstrap. Enumerate
interfaces; on enumeration error propagate without configuring; with zero
interfaces configure a dynamic network for the default interface `eth0`;
otherwise do nothing. -/
def ensureMinimalNetworkSetup (s : Svc) : Except String Unit × List Effect :=
  match s.ifaces with
  | .error e => (.error e, [.listInterfaces])
  | .ok l =>
    if l.isEmpty then
      match s.setupResult with
      | .error e => (.error e, [.listInterfaces, .configureNetwork "eth0" "dynamic"])
      | .ok _ => (.ok (), [.listInterfaces, .configureNetwork "eth0" "dynamic"])
    else (.ok (), [.listInterfaces])

/-- Modelled from the spec: one logical GET against a full URL through the
retryable client, each attempt an `httpGet` effect, the exhausted error
wrapped with the client's "Performing GET request" context. -/
def doGet (s : Svc) (url : String) : Except String String × List Effect :=
  let r := retryGet (s.http url)
  (r.1.mapError (fun e => "Performing GET request: " ++ e),
   List.replicate r.2 (.httpGet url))

/-- The user-data URL: base URL plus the configured user-data path. -/
def userDataURL (s : Svc) : String := s.metadataHost ++ s.userDataPath

/-- Modelled from the spec: fetch and decode the user-data document. A fetch
error is wrapped with "Getting user data from url <url>"; the body is then
decoded (direct JSON first, base64 URL-safe fallback). -/
def getUserData (s : Svc) : Except String UserDataDoc × List Effect :=
  let r := doGet s (userDataURL s)
  match r.1 with
  | .error e => (.error ("Getting user data from url " ++ userDataURL s ++ ": " ++ e), r.2)
  | .ok body => (decodeUserData body, r.2)

/-- Modelled from the spec: `GetPublicKey`. Empty public-key path short-circuits
to an empty result with no effects; otherwise bootstrap then raw GET. -/
def GetPublicKey (s : Svc) : (String × Option String) × List Effect :=
  if s.sshKeysPath = "" then (("", none), [])
  else
    match ensureMinimalNetworkSetup s with
    | (.error e, eff) => (("", some e), eff)
    | (.ok _, eff) =>
      let r := doGet s (s.metadataHost ++ s.sshKeysPath)
      match r.1 with
      | .error e => (("", some e), eff ++ r.2)
      | .ok body => ((body, none), eff ++ r.2)

/-- Modelled from the spec: `GetInstanceID`, same shape as `GetPublicKey`
against the instance-id path. -/
def GetInstanceID (s : Svc) : (String × Option String) × List Effect :=
  if s.instanceIDPath = "" then (("", none), [])
  else
    match ensureMinimalNetworkSetup s with
    | (.error e, eff) => (("", some e), eff)
    | (.ok _, eff) =>
      let r := doGet s (s.metadataHost ++ s.instanceIDPath)
      match r.1 with
      | .error e => (("", some e), eff ++ r.2)
      | .ok body => ((body, none), eff ++ r.2)

/-- Modelled from the spec: `GetServerName`. Bootstrap, fetch and decode
user data (errors wrapped with "Getting user data"), extract `server.name`;
absent or empty name is the "Empty server name" error. -/
def GetServerName (s : Svc) : (String × Option String) × List Effect :=
  match ensureMinimalNetworkSetup s with
  | (.error e, eff) => (("", some e), eff)
  | (.ok _, eff) =>
    let g := getUserData s
    match g.1 with
    | .error e => (("", some ("Getting user data: " ++ e)), eff ++ g.2)
    | .ok doc =>
      match doc.serverName with
      | none => (("", some "Empty server name"), eff ++ g.2)
      | some n =>
        if n = "" then (("", some "Empty server name"), eff ++ g.2)
        else ((n, none), eff ++ g.2)

/-- Modelled from the spec: `GetRegistryEndpoint`. Bootstrap, fetch and decode
user data (errors wrapped with "Getting user data"), extract
`registry.endpoint`; with a non-empty `dns.nameserver` list resolve the
endpoint through the DNS collaborator, a resolution failure wrapping the
resolver's error and returning no endpoint. -/
def GetRegistryEndpoint (s : Svc) : (String × Option String) × List Effect :=
  match ensureMinimalNetworkSetup s with
  | (.error e, eff) => (("", some e), eff)
  | (.ok _, eff) =>
    let g := getUserData s
    match g.1 with
    | .error e => (("", some ("Getting user data: " ++ e)), eff ++ g.2)
    | .ok doc =>
      let endpoint := doc.registryEndpoint.getD ""
      if doc.dnsServers.isEmpty then ((endpoint, none), eff ++ g.2)
      else
        match s.dns doc.dnsServers endpoint with
        | .ok resolved => ((resolved, none), eff ++ g.2)
        | .error e => (("", some ("Resolving registry endpoint: " ++ e)), eff ++ g.2)

/-- Modelled from the spec: `GetValueAtPath`. The empty path fails at once
with the "empty path" error and no network activity; a non-empty path
bootstraps, performs the retryable GET and returns the raw body unmodified. -/
def GetValueAtPath (s : Svc) (path : String) : (String × Option String) × List Effect :=
  if path = "" then (("", some "Can not retrieve metadata value for empty path"), [])
  else
    match ensureMinimalNetworkSetup s with
    | (.error e, eff) => (("", some e), eff)
    | (.ok _, eff) =>
      let r := doGet s (s.metadataHost ++ path)
      match r.1 with
      | .error e => (("", some e), eff ++ r.2)
      | .ok body => ((body, none), eff ++ r.2)

/-- Modelled from the spec: `GetSettings`. Bootstrap, fetch and decode user
data, extract the `settings` object; its absence is the exact error
"Metadata does not provide settings", while a present-but-empty object is
returned as-is. -/
def GetSettings (s : Svc) : Except String Settings × List Effect :=
  match ensureMinimalNetworkSetup s with
  | (.error e, eff) => (.error e, eff)
  | (.ok _, eff) =>
    let g := getUserData s
    match g.1 with
    | .error e => (.error e, eff ++ g.2)
    | .ok doc =>
      match doc.settings with
      | none => (.error "Metadata does not provide settings", eff ++ g.2)
      | some st => (.ok st, eff ++ g.2)

/-- The public queries of the metadata service. -/
inductive Query where
  | publicKey
  | instanceID
  | serverName
  | registryEndpoint
  | settings
  | valueAtPath (p : String)

/-- The error (if any) and effect trace of running one query on a fresh
service instance. -/
def runQuery (s : Svc) : Query → Option String × List Effect
  | .publicKey => ((GetPublicKey s).1.2, (GetPublicKey s).2)
  | .instanceID => ((GetInstanceID s).1.2, (GetInstanceID s).2)
  | .serverName => ((GetServerName s).1.2, (GetServerName s).2)
  | .registryEndpoint => ((GetRegistryEndpoint s).1.2, (GetRegistryEndpoint s).2)
  | .settings =>
    (match (GetSettings s).1 with
     | .error e => some e
     | .ok _ => none, (GetSettings s).2)
  | .valueAtPath p => ((GetValueAtPath s p).1.2, (GetValueAtPath s p).2)

/-- A query requires an HTTP request unless its configured path is empty. -/
def requiresRequest (s : Svc) : Query → Prop
  | .publicKey => s.sshKeysPath ≠ ""
  | .instanceID => s.instanceIDPath ≠ ""
  | .serverName => True
  | .registryEndpoint => True
  | .settings => True
  | .valueAtPath p => p ≠ ""

/-- The three hard-coded candidate locations `FindGitExe` probes after the
PATH lookup, in order (from `lgpo/lgpo.go`). -/
def gitCandidatePaths : List String :=
  ["C:\\Git\\cmd\\git.exe",
   "C:\\Program Files\\Git\\cmd\\git.exe",
   "C:\\Program Files (x86)\\Git\\cmd\\git.exe"]

/-- The filesystem facts `FindGitExe` consults: the result of
`exec.LookPath("git.exe")` and, per path, whether `os.Stat` succeeds. -/
structure GitFS where
  lookPathResult : Option String
  statOk : String → Bool

/-- The candidate loop of `FindGitExe`: return the first path whose `os.Stat`
returns an error (`err != nil`), exactly as the source writes it. -/
def findGitLoop (fs : GitFS) : List String → Except String String
  | [] => .error "git.exe not found"
  | p :: rest => if fs.statOk p then findGitLoop fs rest else .ok p

/-- `FindGitExe` from `lgpo/lgpo.go`: a successful PATH lookup wins; otherwise
probe the three candidate paths with the inverted stat check. -/
def FindGitExe (fs : GitFS) : Except String String :=
  match fs.lookPathResult with
  | some s => .ok s
  | none => findGitLoop fs gitCandidatePaths

/-- One receive of `RestartComputer`'s for-select loop: the ticker fired, or
the one-minute timeout fired. -/
inductive LoopEvent where
  | tick
  | timedOut
deriving DecidableEq, Repr

/-- The for-select loop of `RestartComputer` over a finite trace of channel
events: a tick logs and loops again, the timeout returns the error; if the
trace ends without a timeout the loop is still running and has returned
nothing (`none`). -/
def restartLoop : List LoopEvent → Option String
  | [] => none
  | .tick :: rest => restartLoop rest
  | .timedOut :: _ => some "Timed out waiting for shutdown"

/-- The environment `RestartComputer` runs in: the outcome of its
`CreatePolicyLockFile` call and the channel events its loop observes.
(The `shutdown.exe` invocation only logs; its outcome never reaches the
return value.) -/
structure RestartWorld where
  createLockResult : Except String Unit
  loopEvents : List LoopEvent

/-- `RestartComputer` from `lgpo/lgpo.go`, as a step-bounded outcome function over
a finite event trace: `some r` when the function has returned `r` within the
trace, `none` when it is still inside the loop. The trailing `return nil`
after the for-select has no corresponding case: no trace reaches it. -/
def RestartComputer (w : RestartWorld) : Option (Except String Unit) :=
  match w.createLockResult with
  | .error e => some (.error e)
  | .ok _ =>
    match restartLoop w.loopEvents with
    | some msg => some (.error msg)
    | none => none

/-- The environment `ApplyPolicy` runs in: whether the policy lock file exists
at entry, and the outcomes of each step it performs in order. -/
structure PolicyWorld where
  lockFileExists : Bool
  tempDirResult : Except String String
  waitNetworkResult : Except String Unit
  cloneResult : Except String String
  policyPathStatErr : Option String
  runLGPOResult : Except String Unit
  createLockResult : Except String Unit
  restart : RestartWorld

/-- `ApplyPolicy` from `lgpo/lgpo.go`, threading each step's outcome in source
order; like `RestartComputer` it may still be running (`none`) because its
final step loops. -/
def ApplyPolicy (w : PolicyWorld) : Option (Except String Unit) :=
  if w.lockFileExists then some (.ok ())
  else
    match w.tempDirResult with
    | .error e => some (.error e)
    | .ok _ =>
      match w.waitNetworkResult with
      | .error e => some (.error e)
      | .ok _ =>
        match w.cloneResult with
        | .error e => some (.error e)
        | .ok _ =>
          match w.policyPathStatErr with
          | some e => some (.error e)
          | none =>
            match w.runLGPOResult with
            | .error e => some (.error e)
            | .ok _ =>
              match w.createLockResult with
              | .error e => some (.error e)
              | .ok _ =>
                match RestartComputer w.restart with
                | some (.error e) => some (.error e)
                | some (.ok _) => some (.ok ())
                | none => none

theorem retryAux_attempts_le (resp : Nat → AttemptResult) (idx n : Nat) :
    (retryAux resp idx n).2 ≤ n := by
  induction n generalizing idx with
  | zero => simp [retryAux]
  | succ m ih =>
    simp only [retryAux]
    cases h : attemptFailure (resp idx) with
    | none => simp
    | some msg =>
      by_cases hm : m = 0
      · simp [hm]
      · simpa [hm] using Nat.succ_le_succ (ih (idx + 1))

theorem retryAux_first_success (resp : Nat → AttemptResult) (k : Nat) :
    ∀ idx n, k < n →
      (∀ j, j < k → (attemptFailure (resp (idx + j))).isSome) →
      attemptFailure (resp (idx + k)) = none →
      retryAux resp idx n = (.ok (attemptBody (resp (idx + k))), k + 1) := by
  induction k with
  | zero =>
    intro idx n hn hfail hsucc
    match n, hn with
    | m + 1, _ =>
      simp only [Nat.add_zero] at hsucc
      simp [retryAux, hsucc]
  | succ k ih =>
    intro idx n hn hfail hsucc
    match n, hn with
    | m + 1, hn =>
      have hk : k < m := Nat.lt_of_succ_lt_succ hn
      have hm : m ≠ 0 := by omega
      have h0 : (attemptFailure (resp idx)).isSome := by
        simpa using hfail 0 (Nat.succ_pos k)
      obtain ⟨msg, h0⟩ := Option.isSome_iff_exists.mp h0
      have hrec := ih (idx + 1) m hk
        (fun j hj => by
          have := hfail (j + 1) (Nat.succ_lt_succ hj)
          simpa [Nat.add_assoc, Nat.add_comm 1 j] using this)
        (by simpa [Nat.add_assoc, Nat.add_comm 1 k] using hsucc)
      simp only [retryAux, h0, hm, if_false]
      rw [hrec]
      have : idx + 1 + k = idx + (k + 1) := by omega
      simp [this]

theorem retryAux_all_fail (resp : Nat → AttemptResult) (M : String) :
    ∀ n idx, 1 ≤ n → (∀ j, j < n → attemptFailure (resp (idx + j)) = some M) →
      retryAux resp idx n = (.error M, n) := by
  intro n
  induction n with
  | zero => intro idx h; omega
  | succ m ih =>
    intro idx _ hfail
    have h0 : attemptFailure (resp idx) = some M := by
      simpa using hfail 0 (Nat.succ_pos m)
    by_cases hm : m = 0
    · subst hm; simp [retryAux, h0]
    · have hrec := ih (idx + 1) (by omega)
        (fun j hj => by
          have := hfail (j + 1) (Nat.succ_lt_succ hj)
          simpa [Nat.add_assoc, Nat.add_comm 1 j] using this)
      simp [retryAux, h0, hm, hrec]

theorem retryAux_all_fail_isSome (resp : Nat → AttemptResult) :
    ∀ n idx, 1 ≤ n → (∀ j, j < n → (attemptFailure (resp (idx + j))).isSome) →
      ∃ e, retryAux resp idx n = (.error e, n) := by
  intro n
  induction n with
  | zero => intro idx h; omega
  | succ m ih =>
    intro idx _ hfail
    have h0 : (attemptFailure (resp idx)).isSome := by
      simpa using hfail 0 (Nat.succ_pos m)
    obtain ⟨msg, h0⟩ := Option.isSome_iff_exists.mp h0
    by_cases hm : m = 0
    · subst hm; exact ⟨msg, by simp [retryAux, h0]⟩
    · obtain ⟨e, hrec⟩ := ih (idx + 1) (by omega)
        (fun j hj => by
          have := hfail (j + 1) (Nat.succ_lt_succ hj)
          simpa [Nat.add_assoc, Nat.add_comm 1 j] using this)
      exact ⟨e, by simp [retryAux, h0, hm, hrec]⟩

/-- C1: For one logical GET of the RetryableHTTPClient with `maxAttempts = 10`:
at most 10 attempts are ever made; if the first 9 attempts fail and the 10th
returns a 2xx status the operation succeeds with that attempt's body; if 10
consecutive attempts fail the operation fails; and the operation returns as
soon as one attempt yields a 2xx status (after `k` failures and a success,
exactly `k + 1` attempts are made). -/
theorem retry_boundary_C1 (resp : Nat → AttemptResult) :
    (retryGet resp).2 ≤ maxAttempts
    ∧ ((∀ j, j < 9 → (attemptFailure (resp j)).isSome) → attemptFailure (resp 9) = none →
        retryGet resp = (.ok (attemptBody (resp 9)), 10))
    ∧ ((∀ j, j < 10 → (attemptFailure (resp j)).isSome) →
        ∃ e, retryGet resp = (.error e, 10))
    ∧ (∀ k, k < maxAttempts → (∀ j, j < k → (attemptFailure (resp j)).isSome) →
        attemptFailure (resp k) = none →
        retryGet resp = (.ok (attemptBody (resp k)), k + 1)) := by
  refine ⟨retryAux_attempts_le resp 0 maxAttempts, ?_, ?_, ?_⟩
  · intro hfail hsucc
    have h := retryAux_first_success resp 9 0 maxAttempts (by decide)
      (fun j hj => by simpa using hfail j hj) (by simpa using hsucc)
    simpa [retryGet] using h
  · intro hfail
    have h := retryAux_all_fail_isSome resp maxAttempts 0 (by decide)
      (fun j hj => by simpa using hfail j hj)
    simpa [retryGet] using h
  · intro k hk hfail hsucc
    have h := retryAux_first_success resp k 0 maxAttempts hk
      (fun j hj => by simpa using hfail j hj) (by simpa using hsucc)
    simpa [retryGet] using h

/-- Attempt outcomes that fail 9 times (HTTP 500) then succeed on the 10th. -/
def c1RespNineFail : Nat → AttemptResult := fun i =>
  if i < 9 then .response 500 "500 Internal Server Error" ""
  else .response 200 "200 OK" "fake-body"

/-- Attempt outcomes that fail with HTTP 500 on every attempt. -/
def c1RespAllFail : Nat → AttemptResult := fun _ =>
  .response 500 "500 Internal Server Error" ""

theorem retry_boundary_C1_witness :
    retryGet c1RespNineFail = (.ok "fake-body", 10)
    ∧ (∃ e, retryGet c1RespAllFail = (.error e, 10)) :=
  ⟨(retry_boundary_C1 c1RespNineFail).2.1 (by decide) (by decide),
   (retry_boundary_C1 c1RespAllFail).2.2.1 (by decide)⟩

theorem ensure_ifaces_error (s : Svc) (e : String) (h : s.ifaces = .error e) :
    ensureMinimalNetworkSetup s = (.error e, [.listInterfaces]) := by
  simp [ensureMinimalNetworkSetup, h]

theorem ensure_zero_ifaces_ok (s : Svc) (h : s.ifaces = .ok [])
    (hs : s.setupResult = .ok ()) :
    ensureMinimalNetworkSetup s =
      (.ok (), [.listInterfaces, .configureNetwork "eth0" "dynamic"]) := by
  simp [ensureMinimalNetworkSetup, h, hs]

theorem ensure_setup_error (s : Svc) (e : String) (h : s.ifaces = .ok [])
    (hs : s.setupResult = .error e) :
    ensureMinimalNetworkSetup s =
      (.error e, [.listInterfaces, .configureNetwork "eth0" "dynamic"]) := by
  simp [ensureMinimalNetworkSetup, h, hs]

theorem doGet_effects (s : Svc) (u : String) :
    (doGet s u).2 = List.replicate (retryGet (s.http u)).2 (Effect.httpGet u) := rfl

theorem getUserData_effects (s : Svc) :
    (getUserData s).2 = (doGet s (userDataURL s)).2 := by
  simp only [getUserData]
  split <;> rfl

theorem runQuery_ensure_error (s : Svc) (q : Query) (hq : requiresRequest s q)
    (e : String) (eff : List Effect)
    (h : ensureMinimalNetworkSetup s = (.error e, eff)) :
    runQuery s q = (some e, eff) := by
  cases q with
  | publicKey =>
    have hq2 : ¬ s.sshKeysPath = "" := hq
    simp [runQuery, GetPublicKey, if_neg hq2, h]
  | instanceID =>
    have hq2 : ¬ s.instanceIDPath = "" := hq
    simp [runQuery, GetInstanceID, if_neg hq2, h]
  | serverName => simp [runQuery, GetServerName, h]
  | registryEndpoint => simp [runQuery, GetRegistryEndpoint, h]
  | settings => simp [runQuery, GetSettings, h]
  | valueAtPath p =>
    have hq2 : ¬ p = "" := hq
    simp [runQuery, GetValueAtPath, if_neg hq2, h]

theorem runQuery_effects_ok (s : Svc) (q : Query) (hq : requiresRequest s q)
    (eff : List Effect) (h : ensureMinimalNetworkSetup s = (.ok (), eff)) :
    ∃ n u, (runQuery s q).2 = eff ++ List.replicate n (Effect.httpGet u) := by
  cases q with
  | publicKey =>
    have hq2 : ¬ s.sshKeysPath = "" := hq
    refine ⟨(retryGet (s.http (s.metadataHost ++ s.sshKeysPath))).2,
      s.metadataHost ++ s.sshKeysPath, ?_⟩
    simp only [runQuery, GetPublicKey, if_neg hq2, h]
    split <;> rfl
  | instanceID =>
    have hq2 : ¬ s.instanceIDPath = "" := hq
    refine ⟨(retryGet (s.http (s.metadataHost ++ s.instanceIDPath))).2,
      s.metadataHost ++ s.instanceIDPath, ?_⟩
    simp only [runQuery, GetInstanceID, if_neg hq2, h]
    split <;> rfl
  | serverName =>
    refine ⟨(retryGet (s.http (userDataURL s))).2, userDataURL s, ?_⟩
    have hgeff := (getUserData_effects s).trans (doGet_effects s (userDataURL s))
    simp only [runQuery, GetServerName, h]
    cases hg1 : (getUserData s).1 with
    | error e2 => simp [hgeff]
    | ok doc =>
      cases hsn : doc.serverName with
      | none => simp [hsn, hgeff]
      | some n => by_cases hn : n = "" <;> simp [hsn, hn, hgeff]
  | registryEndpoint =>
    refine ⟨(retryGet (s.http (userDataURL s))).2, userDataURL s, ?_⟩
    have hgeff := (getUserData_effects s).trans (doGet_effects s (userDataURL s))
    simp only [runQuery, GetRegistryEndpoint, h]
    cases hg1 : (getUserData s).1 with
    | error e2 => simp [hgeff]
    | ok doc =>
      by_cases hd : doc.dnsServers.isEmpty
      · simp [hd, hgeff]
      · cases hdns : s.dns doc.dnsServers (doc.registryEndpoint.getD "") <;>
          simp [hd, hdns, hgeff]
  | settings =>
    refine ⟨(retryGet (s.http (userDataURL s))).2, userDataURL s, ?_⟩
    have hgeff := (getUserData_effects s).trans (doGet_effects s (userDataURL s))
    simp only [runQuery, GetSettings, h]
    cases hg1 : (getUserData s).1 with
    | error e2 => simp [hgeff]
    | ok doc => cases hst : doc.settings <;> simp [hst, hgeff]
  | valueAtPath p =>
    have hq2 : ¬ p = "" := hq
    refine ⟨(retryGet (s.http (s.metadataHost ++ p))).2, s.metadataHost ++ p, ?_⟩
    simp only [runQuery, GetValueAtPath, if_neg hq2, h]
    split <;> rfl

/-- C2: For every query that requires an HTTP request, on a fresh service
instance: a failing interface enumeration fails the query with that error and
causes no configuration call and no HTTP request; with zero configured
interfaces exactly one dynamic-network configuration call (`eth0` mapped to
type `dynamic`) happens before any HTTP request; and a failing configuration
call fails the query with the configuration's error and no HTTP request. -/
theorem bootstrap_sequencing_C2 (s : Svc) (q : Query) (hq : requiresRequest s q) :
    (∀ e, s.ifaces = .error e → runQuery s q = (some e, [.listInterfaces]))
    ∧ (s.ifaces = .ok [] → s.setupResult = .ok () →
        ∃ rest, (runQuery s q).2 =
          .listInterfaces :: .configureNetwork "eth0" "dynamic" :: rest ∧
          ∀ x ∈ rest, ∃ u, x = Effect.httpGet u)
    ∧ (∀ e, s.ifaces = .ok [] → s.setupResult = .error e →
        runQuery s q = (some e, [.listInterfaces, .configureNetwork "eth0" "dynamic"])) := by
  refine ⟨?_, ?_, ?_⟩
  · intro e he
    exact runQuery_ensure_error s q hq e [.listInterfaces] (ensure_ifaces_error s e he)
  · intro hz hok
    obtain ⟨n, u, heff⟩ := runQuery_effects_ok s q hq
      [.listInterfaces, .configureNetwork "eth0" "dynamic"] (ensure_zero_ifaces_ok s hz hok)
    refine ⟨List.replicate n (Effect.httpGet u), by simpa using heff, ?_⟩
    intro x hx
    exact ⟨u, List.eq_of_mem_replicate hx⟩
  · intro e hz hs
    exact runQuery_ensure_error s q hq e
      [.listInterfaces, .configureNetwork "eth0" "dynamic"] (ensure_setup_error s e hz hs)

/-- A concrete service instance used by the witnesses: all fixture paths
configured, bootstrap already satisfied, HTTP always returning 200. -/
def baseSvc : Svc where
  metadataHost := "http://fake-host"
  userDataPath := "/user-data"
  instanceIDPath := "/instanceid"
  sshKeysPath := "/ssh-keys"
  ifaces := .ok ["eth0"]
  setupResult := .ok ()
  http := fun _ _ => .response 200 "200 OK" ""
  dns := fun _ _ => .error "no record"

theorem bootstrap_sequencing_C2_witness :
    runQuery { baseSvc with ifaces := .error "fake-enumeration-error" } Query.serverName =
        (some "fake-enumeration-error", [.listInterfaces])
    ∧ runQuery { baseSvc with ifaces := .ok [], setupResult := .error "fake-network-error" }
        Query.registryEndpoint =
        (some "fake-network-error", [.listInterfaces, .configureNetwork "eth0" "dynamic"])
    ∧ (∃ rest, (runQuery { baseSvc with ifaces := .ok [] } Query.settings).2 =
        .listInterfaces :: .configureNetwork "eth0" "dynamic" :: rest ∧
        ∀ x ∈ rest, ∃ u, x = Effect.httpGet u) :=
  ⟨(bootstrap_sequencing_C2 _ Query.serverName trivial).1 _ rfl,
   (bootstrap_sequencing_C2 _ Query.registryEndpoint trivial).2.2 _ rfl rfl,
   (bootstrap_sequencing_C2 _ Query.settings trivial).2.1 rfl rfl⟩

/-- C7: With an empty public-key path (respectively empty instance-id path),
`GetPublicKey` (respectively `GetInstanceID`) returns the empty string with no
error and produces no effect at all: no interface enumeration, no network
configuration, no HTTP request. -/
theorem empty_path_frame_C7 (s : Svc) :
    (s.sshKeysPath = "" → GetPublicKey s = (("", none), []))
    ∧ (s.instanceIDPath = "" → GetInstanceID s = (("", none), [])) :=
  ⟨fun h => by simp [GetPublicKey, h], fun h => by simp [GetInstanceID, h]⟩

theorem empty_path_frame_C7_witness :
    GetPublicKey { baseSvc with sshKeysPath := "" } = (("", none), [])
    ∧ GetInstanceID { baseSvc with instanceIDPath := "" } = (("", none), []) :=
  ⟨(empty_path_frame_C7 _).1 rfl, (empty_path_frame_C7 _).2 rfl⟩

/-- C8: `GetValueAtPath` on the empty path always fails with the
"Can not retrieve metadata value for empty path" error and produces no effect
(no bootstrap, no HTTP request); on a non-empty path, once bootstrap succeeds
and the first attempt returns a 2xx status, it returns the raw response body
exactly as received, with the retryable GET as its only HTTP activity. -/
theorem value_at_path_C8 (s : Svc) :
    ((GetValueAtPath s "").2 = [] ∧
      ∃ m, (GetValueAtPath s "").1 = ("", some m) ∧
        containsSubstr m "Can not retrieve metadata value for empty path")
    ∧ (∀ p eff code text b, p ≠ "" →
        ensureMinimalNetworkSetup s = (.ok (), eff) →
        s.http (s.metadataHost ++ p) 0 = .response code text b →
        statusIs2xx code = true →
        GetValueAtPath s p = ((b, none), eff ++ [.httpGet (s.metadataHost ++ p)])) := by
  constructor
  · exact ⟨by simp [GetValueAtPath], "Can not retrieve metadata value for empty path",
      by simp [GetValueAtPath], "", "", by simp⟩
  · intro p eff code text b hp hens hresp hcode
    have hfail : attemptFailure (s.http (s.metadataHost ++ p) 0) = none := by
      rw [hresp]; simp [attemptFailure, hcode]
    have hbody : attemptBody (s.http (s.metadataHost ++ p) 0) = b := by
      rw [hresp]; rfl
    have hget : retryGet (s.http (s.metadataHost ++ p)) = (.ok b, 1) := by
      have h := retryAux_first_success (s.http (s.metadataHost ++ p)) 0 0 maxAttempts
        (by decide) (by omega) (by simpa using hfail)
      rw [retryGet, h, hbody]
    simp [GetValueAtPath, if_neg hp, hens, doGet, hget, Except.mapError]

theorem value_at_path_C8_witness :
    (GetValueAtPath baseSvc "").2 = []
    ∧ (∃ m, (GetValueAtPath baseSvc "").1 = ("", some m) ∧
        containsSubstr m "Can not retrieve metadata value for empty path")
    ∧ GetValueAtPath { baseSvc with
          http := fun _ _ => .response 200 "200 OK" "raw-response-body" } "/user-data" =
        (("raw-response-body", none),
          [.listInterfaces, .httpGet "http://fake-host/user-data"]) :=
  ⟨(value_at_path_C8 baseSvc).1.1, (value_at_path_C8 baseSvc).1.2,
   (value_at_path_C8 _).2 "/user-data" [.listInterfaces] 200 "200 OK" "raw-response-body"
     (by decide) rfl rfl rfl⟩

theorem getUserData_first_attempt (s : Svc) (code : Nat) (text body : String)
    (hresp : s.http (userDataURL s) 0 = .response code text body)
    (hcode : statusIs2xx code = true) :
    (getUserData s).1 = decodeUserData body := by
  have hfail : attemptFailure (s.http (userDataURL s) 0) = none := by
    rw [hresp]; simp [attemptFailure, hcode]
  have hbody : attemptBody (s.http (userDataURL s) 0) = body := by
    rw [hresp]; rfl
  have hget : retryGet (s.http (userDataURL s)) = (.ok body, 1) := by
    have h := retryAux_first_success (s.http (userDataURL s)) 0 0 maxAttempts
      (by decide) (by omega) (by simpa using hfail)
    rw [retryGet, h, hbody]
  simp [getUserData, doGet, hget, Except.mapError]

/-- C3: `GetRegistryEndpoint` with a user-data document carrying
`registry.endpoint` and no `dns.nameserver` list returns the endpoint
unresolved with no error; with a non-empty nameserver list and a succeeding
resolver it returns the resolver's resolved address; if the resolver fails it
returns the empty string together with an error containing the resolver's
message. -/
theorem registry_endpoint_C3 (s : Svc) (eff : List Effect) (doc : UserDataDoc) (E : String)
    (hens : ensureMinimalNetworkSetup s = (.ok (), eff))
    (hgu : (getUserData s).1 = .ok doc)
    (hep : doc.registryEndpoint = some E) :
    (doc.dnsServers = [] → (GetRegistryEndpoint s).1 = (E, none))
    ∧ (∀ A, doc.dnsServers ≠ [] → s.dns doc.dnsServers E = .ok A →
        (GetRegistryEndpoint s).1 = (A, none))
    ∧ (∀ m, doc.dnsServers ≠ [] → s.dns doc.dnsServers E = .error m →
        ∃ err, (GetRegistryEndpoint s).1 = ("", some err) ∧ containsSubstr err m) := by
  refine ⟨?_, ?_, ?_⟩
  · intro hd
    simp [GetRegistryEndpoint, hens, hgu, hd, hep]
  · intro A hd hres
    have hde : doc.dnsServers.isEmpty = false := by
      cases hds : doc.dnsServers with
      | nil => exact absurd hds hd
      | cons a l => simp
    simp [GetRegistryEndpoint, hens, hgu, hde, hep, hres]
  · intro m hd hres
    have hde : doc.dnsServers.isEmpty = false := by
      cases hds : doc.dnsServers with
      | nil => exact absurd hds hd
      | cons a l => simp
    refine ⟨"Resolving registry endpoint: " ++ m, ?_, "Resolving registry endpoint: ", "", by simp⟩
    simp [GetRegistryEndpoint, hens, hgu, hde, hep, hres]

/-- Service whose user-data endpoint serves a registry endpoint and no DNS
nameserver list. -/
def c3SvcNoDNS : Svc :=
  { baseSvc with
    http := fun _ _ =>
      .response 200 "200 OK" "\x7b\"registry\":\x7b\"endpoint\":\"http://fake-registry.com\"\x7d\x7d" }

/-- Service whose user-data endpoint serves a registry endpoint plus a DNS
nameserver list, with a resolver that succeeds for that server list and host. -/
def c3SvcDNS : Svc :=
  { baseSvc with
    http := fun _ _ => .response 200 "200 OK"
        "\x7b\"registry\":\x7b\"endpoint\":\"http://fake-registry.com\"\x7d,\"dns\":\x7b\"nameserver\":[\"fake-dns-server-ip\"]\x7d\x7d",
    dns := fun servers host =>
        if servers = ["fake-dns-server-ip"] ∧ host = "http://fake-registry.com"
        then .ok "http://fake-registry-ip" else .error "no record" }

/-- The same service with a resolver that fails. -/
def c3SvcDNSFail : Svc :=
  { c3SvcDNS with dns := fun _ _ => .error "fake-lookup-host-err" }

theorem registry_endpoint_C3_witness :
    (GetRegistryEndpoint c3SvcNoDNS).1 = ("http://fake-registry.com", none)
    ∧ (GetRegistryEndpoint c3SvcDNS).1 = ("http://fake-registry-ip", none)
    ∧ (∃ err, (GetRegistryEndpoint c3SvcDNSFail).1 = ("", some err) ∧
        containsSubstr err "fake-lookup-host-err") :=
  ⟨(registry_endpoint_C3 c3SvcNoDNS [.listInterfaces]
      ⟨some "http://fake-registry.com", [], none, none⟩ "http://fake-registry.com"
      rfl (getUserData_first_attempt c3SvcNoDNS 200 "200 OK"
        "\x7b\"registry\":\x7b\"endpoint\":\"http://fake-registry.com\"\x7d\x7d" rfl rfl) rfl).1 rfl,
   (registry_endpoint_C3 c3SvcDNS [.listInterfaces]
      ⟨some "http://fake-registry.com", ["fake-dns-server-ip"], none, none⟩ "http://fake-registry.com"
      rfl (getUserData_first_attempt c3SvcDNS 200 "200 OK"
        "\x7b\"registry\":\x7b\"endpoint\":\"http://fake-registry.com\"\x7d,\"dns\":\x7b\"nameserver\":[\"fake-dns-server-ip\"]\x7d\x7d" rfl rfl) rfl).2.1
      "http://fake-registry-ip" (by simp) (by simp [c3SvcDNS]),
   (registry_endpoint_C3 c3SvcDNSFail [.listInterfaces]
      ⟨some "http://fake-registry.com", ["fake-dns-server-ip"], none, none⟩ "http://fake-registry.com"
      rfl (getUserData_first_attempt c3SvcDNSFail 200 "200 OK"
        "\x7b\"registry\":\x7b\"endpoint\":\"http://fake-registry.com\"\x7d,\"dns\":\x7b\"nameserver\":[\"fake-dns-server-ip\"]\x7d\x7d" rfl rfl) rfl).2.2
      "fake-lookup-host-err" (by simp) rfl⟩

theorem containsSubstr_concat (pre sub tail : String) :
    containsSubstr (pre ++ sub ++ tail) sub := ⟨pre, tail, rfl⟩

theorem containsSubstr_right (pre sub : String) : containsSubstr (pre ++ sub) sub :=
  ⟨pre, "", by rw [String.append_assoc, String.append_empty]⟩

theorem containsSubstr_refl (sub : String) : containsSubstr sub sub :=
  ⟨"", "", by rw [String.append_assoc, String.append_empty, String.empty_append]⟩

/-- C4: The user-data decoder tries a direct JSON parse first and, only if that
fails, a base64 URL-safe unpadded decode followed by a JSON parse, in that
fixed order, using whichever succeeds first; a failing base64 decode yields an
error containing "Decoding url encoded user data"; a successful decode whose
bytes are not valid JSON yields an error containing
"Unmarshalling url decoded user data" followed by the decoded text in single
quotes; and each structured query (`GetServerName`, `GetRegistryEndpoint`,
`GetSettings`) fails with an error containing the decode error's message. -/
theorem decode_order_C4 (body : String) :
    (∀ d, parseUserDataDoc body = some d → decodeUserData body = .ok d)
    ∧ (∀ e, parseUserDataDoc body = none → b64UrlDecode body = .error e →
        ∃ m, decodeUserData body = .error m ∧
          containsSubstr m "Decoding url encoded user data")
    ∧ (∀ t, parseUserDataDoc body = none → b64UrlDecode body = .ok t →
        parseUserDataDoc t = none →
        ∃ m, decodeUserData body = .error m ∧
          containsSubstr m ("Unmarshalling url decoded user data \x27" ++ t ++ "\x27"))
    ∧ (∀ t d, parseUserDataDoc body = none → b64UrlDecode body = .ok t →
        parseUserDataDoc t = some d → decodeUserData body = .ok d)
    ∧ (∀ s eff m, ensureMinimalNetworkSetup s = (.ok (), eff) →
        (getUserData s).1 = decodeUserData body → decodeUserData body = .error m →
        (∃ e1, (GetServerName s).1 = ("", some e1) ∧ containsSubstr e1 m)
        ∧ (∃ e2, (GetRegistryEndpoint s).1 = ("", some e2) ∧ containsSubstr e2 m)
        ∧ (GetSettings s).1 = .error m) := by
  refine ⟨?_, ?_, ?_, ?_, ?_⟩
  · intro d hp
    simp [decodeUserData, hp]
  · intro e hp hb
    refine ⟨"Decoding url encoded user data: " ++ e, by simp [decodeUserData, hp, hb], "", ": " ++ e, ?_⟩
    rw [String.empty_append, ← String.append_assoc]
    rfl
  · intro t hp hb hpt
    refine ⟨"Unmarshalling url decoded user data \x27" ++ t ++ "\x27: invalid JSON",
      by simp [decodeUserData, hp, hb, hpt], "", ": invalid JSON", ?_⟩
    rw [String.empty_append]
    simp only [String.append_assoc]
    rfl
  · intro t d hp hb hpt
    simp [decodeUserData, hp, hb, hpt]
  · intro s eff m hens hgu hdec
    rw [hdec] at hgu
    refine ⟨⟨"Getting user data: " ++ m, ?_, containsSubstr_right _ m⟩,
      ⟨"Getting user data: " ++ m, ?_, containsSubstr_right _ m⟩, ?_⟩
    · simp [GetServerName, hens, hgu]
    · simp [GetRegistryEndpoint, hens, hgu]
    · simp [GetSettings, hens, hgu]

/-- Service serving the user-data JSON as base64 with the standard (non
URL-safe, padded) alphabet, as the "corrupt URL encoding" fixture does. -/
def c4SvcStdB64 : Svc :=
  { baseSvc with
    http := fun _ _ =>
      .response 200 "200 OK" "eyJzZXJ2ZXIiOnsibmFtZSI6ImZha2Utc2VydmVyLW5hbWUifX0=" }

/-- Service serving valid base64 URL-safe unpadded bytes that are not JSON. -/
def c4SvcBadJSON : Svc :=
  { baseSvc with
    http := fun _ _ => .response 200 "200 OK" "eyJzZXJ2ZXIgYmFkIGpzb25d" }

theorem decode_order_C4_witness :
    decodeUserData "\x7b\"server\":\x7b\"name\":\"fake-server-name\"\x7d\x7d" =
      .ok ⟨none, [], some "fake-server-name", none⟩
    ∧ decodeUserData "eyJzZXJ2ZXIiOnsibmFtZSI6ImZha2Utc2VydmVyLW5hbWUifX0" =
      .ok ⟨none, [], some "fake-server-name", none⟩
    ∧ (∃ m, decodeUserData "eyJzZXJ2ZXIiOnsibmFtZSI6ImZha2Utc2VydmVyLW5hbWUifX0=" = .error m ∧
        containsSubstr m "Decoding url encoded user data")
    ∧ (∃ m, decodeUserData "eyJzZXJ2ZXIgYmFkIGpzb25d" = .error m ∧
        containsSubstr m ("Unmarshalling url decoded user data \x27" ++
          "\x7b\"server bad json]" ++ "\x27"))
    ∧ (∃ e1, (GetServerName c4SvcStdB64).1 = ("", some e1) ∧
        containsSubstr e1 "Decoding url encoded user data: illegal base64 data") :=
  ⟨(decode_order_C4 "\x7b\"server\":\x7b\"name\":\"fake-server-name\"\x7d\x7d").1
      ⟨none, [], some "fake-server-name", none⟩ (by rfl),
   (decode_order_C4 "eyJzZXJ2ZXIiOnsibmFtZSI6ImZha2Utc2VydmVyLW5hbWUifX0").2.2.2.1
      "\x7b\"server\":\x7b\"name\":\"fake-server-name\"\x7d\x7d"
      ⟨none, [], some "fake-server-name", none⟩ (by rfl) (by rfl) (by rfl),
   (decode_order_C4 "eyJzZXJ2ZXIiOnsibmFtZSI6ImZha2Utc2VydmVyLW5hbWUifX0=").2.1
      "illegal base64 data" (by rfl) (by rfl),
   (decode_order_C4 "eyJzZXJ2ZXIgYmFkIGpzb25d").2.2.1
      "\x7b\"server bad json]" (by rfl) (by rfl) (by rfl),
   ((decode_order_C4 "eyJzZXJ2ZXIiOnsibmFtZSI6ImZha2Utc2VydmVyLW5hbWUifX0=").2.2.2.2
      c4SvcStdB64 [.listInterfaces] "Decoding url encoded user data: illegal base64 data"
      rfl (getUserData_first_attempt c4SvcStdB64 200 "200 OK"
        "eyJzZXJ2ZXIiOnsibmFtZSI6ImZha2Utc2VydmVyLW5hbWUifX0=" rfl rfl) (by rfl)).1⟩

/-- C5: `GetSettings` with a decoded user-data document whose settings object
carries `agent_id` and `mbus` returns exactly those two values with no error;
with the `\x7b\x7d` document (no settings key) it fails with the exact message
"Metadata does not provide settings"; and a present-but-empty settings object
is not treated as absent (it is returned, not an error). -/
theorem settings_C5 (s : Svc) (eff : List Effect) (doc : UserDataDoc)
    (hens : ensureMinimalNetworkSetup s = (.ok (), eff))
    (hgu : (getUserData s).1 = .ok doc) :
    (∀ st, doc.settings = some st → (GetSettings s).1 = .ok st)
    ∧ (doc.settings = none →
        (GetSettings s).1 = .error "Metadata does not provide settings")
    ∧ parseUserDataDoc "\x7b\x7d" = some ⟨none, [], none, none⟩
    ∧ parseUserDataDoc "\x7b\"settings\":\x7b\x7d\x7d" =
        some ⟨none, [], none, some ⟨"", ""⟩⟩ := by
  refine ⟨?_, ?_, by rfl, by rfl⟩
  · intro st hst
    simp [GetSettings, hens, hgu, hst]
  · intro hst
    simp [GetSettings, hens, hgu, hst]

/-- Service whose user-data endpoint serves a settings object with `agent_id`
and `mbus`. -/
def c5SvcSettings : Svc :=
  { baseSvc with
    http := fun _ _ => .response 200 "200 OK"
        "\x7b\"settings\":\x7b\"agent_id\":\"Agent-Foo\",\"mbus\":\"Agent-Mbus\"\x7d\x7d" }

/-- Service whose user-data endpoint serves the empty JSON object. -/
def c5SvcNoSettings : Svc :=
  { baseSvc with http := fun _ _ => .response 200 "200 OK" "\x7b\x7d" }

/-- Service whose user-data endpoint serves a present-but-empty settings
object. -/
def c5SvcEmptySettings : Svc :=
  { baseSvc with
    http := fun _ _ => .response 200 "200 OK" "\x7b\"settings\":\x7b\x7d\x7d" }

theorem settings_C5_witness :
    (GetSettings c5SvcSettings).1 = .ok ⟨"Agent-Foo", "Agent-Mbus"⟩
    ∧ (GetSettings c5SvcNoSettings).1 = .error "Metadata does not provide settings"
    ∧ (GetSettings c5SvcEmptySettings).1 = .ok ⟨"", ""⟩ :=
  ⟨(settings_C5 c5SvcSettings [.listInterfaces] ⟨none, [], none, some ⟨"Agent-Foo", "Agent-Mbus"⟩⟩
      rfl (getUserData_first_attempt c5SvcSettings 200 "200 OK"
        "\x7b\"settings\":\x7b\"agent_id\":\"Agent-Foo\",\"mbus\":\"Agent-Mbus\"\x7d\x7d"
        rfl rfl)).1 ⟨"Agent-Foo", "Agent-Mbus"⟩ rfl,
   (settings_C5 c5SvcNoSettings [.listInterfaces] ⟨none, [], none, none⟩
      rfl (getUserData_first_attempt c5SvcNoSettings 200 "200 OK" "\x7b\x7d" rfl rfl)).2.1 rfl,
   (settings_C5 c5SvcEmptySettings [.listInterfaces] ⟨none, [], none, some ⟨"", ""⟩⟩
      rfl (getUserData_first_attempt c5SvcEmptySettings 200 "200 OK"
        "\x7b\"settings\":\x7b\x7d\x7d" rfl rfl)).1 ⟨"", ""⟩ rfl⟩

theorem retryGet_all_500 (resp : Nat → AttemptResult)
    (h : ∀ i, i < 10 → ∃ b, resp i = .response 500 "500 Internal Server Error" b) :
    retryGet resp = (.error (requestFailedMsg 500 "500 Internal Server Error"), 10) := by
  have hfail : ∀ j, j < 10 →
      attemptFailure (resp (0 + j)) = some (requestFailedMsg 500 "500 Internal Server Error") := by
    intro j hj
    obtain ⟨b, hb⟩ := h j hj
    rw [Nat.zero_add, hb]
    rfl
  exact retryAux_all_fail resp (requestFailedMsg 500 "500 Internal Server Error") 10 0
    (by omega) hfail

/-- C6: When all 10 attempts of a `GetRegistryEndpoint` fetch fail with HTTP
500, the returned error message is exactly the chain "Getting user data:
Getting user data from url <baseURL>/user-data: Performing GET request:
Request failed, response: Response ... StatusCode: 500, Status: 500 Internal
Server Error ...", each layer wrapping the next and ending with the
last observed status code and status text. -/
theorem registry_error_chain_C6 (s : Svc) (l : List String)
    (hpath : s.userDataPath = "/user-data")
    (hif : s.ifaces = .ok l) (hne : l ≠ [])
    (hresp : ∀ i, i < 10 → ∃ b, s.http (s.metadataHost ++ "/user-data") i =
      .response 500 "500 Internal Server Error" b) :
    (GetRegistryEndpoint s).1 =
      ("", some ("Getting user data: Getting user data from url " ++ s.metadataHost ++
        "/user-data: Performing GET request: Request failed, response: Response\x7b StatusCode: 500, Status: \x27500 Internal Server Error\x27 \x7d")) := by
  have hle : l.isEmpty = false := by
    cases l with
    | nil => exact absurd rfl hne
    | cons a t => rfl
  have hens : ensureMinimalNetworkSetup s = (.ok (), [.listInterfaces]) := by
    simp [ensureMinimalNetworkSetup, hif, hle]
  have hurl : userDataURL s = s.metadataHost ++ "/user-data" := by
    rw [userDataURL, hpath]
  have hget : retryGet (s.http (userDataURL s)) =
      (.error (requestFailedMsg 500 "500 Internal Server Error"), 10) := by
    rw [hurl]
    exact retryGet_all_500 _ hresp
  have hgu : (getUserData s).1 = .error ("Getting user data from url " ++ userDataURL s ++
      ": " ++ ("Performing GET request: " ++ requestFailedMsg 500 "500 Internal Server Error")) := by
    simp [getUserData, doGet, hget, Except.mapError]
  have hre : (GetRegistryEndpoint s).1 =
      ("", some ("Getting user data: " ++ ("Getting user data from url " ++ userDataURL s ++
        ": " ++ ("Performing GET request: " ++ requestFailedMsg 500 "500 Internal Server Error")))) := by
    simp [GetRegistryEndpoint, hens, hgu]
  rw [hre, hurl]
  simp only [String.append_assoc]
  rw [← String.append_assoc "Getting user data: " "Getting user data from url " _]
  rfl

/-- Service whose user-data endpoint answers HTTP 500 on every attempt. -/
def c6Svc : Svc :=
  { baseSvc with
    http := fun _ _ => .response 500 "500 Internal Server Error" "fake-body" }

theorem registry_error_chain_C6_witness :
    (GetRegistryEndpoint c6Svc).1 =
      ("", some "Getting user data: Getting user data from url http://fake-host/user-data: Performing GET request: Request failed, response: Response\x7b StatusCode: 500, Status: \x27500 Internal Server Error\x27 \x7d") :=
  (registry_error_chain_C6 c6Svc ["eth0"] rfl rfl (by simp)
    (fun i _ => ⟨"fake-body", rfl⟩)).trans (by rfl)

theorem findGitLoop_spec (fs : GitFS) (l : List String) :
    findGitLoop fs l =
      match l.find? (fun p => !fs.statOk p) with
      | some p => .ok p
      | none => .error "git.exe not found" := by
  induction l with
  | nil => rfl
  | cons p rest ih =>
    by_cases h : fs.statOk p
    · simp [findGitLoop, h, List.find?, ih]
    · simp only [Bool.not_eq_true] at h
      simp [findGitLoop, h, List.find?]

/-- C9: When `git.exe` is not found on the system PATH, `FindGitExe` returns
(with nil error) the first of its three hard-coded candidate paths for which
`os.Stat` fails — a path that does not exist — and it returns the error
"git.exe not found" only when `os.Stat` succeeds for all three candidates:
the existence check is inverted relative to returning an existing
executable. -/
theorem find_git_exe_C9 (fs : GitFS) (h : fs.lookPathResult = none) :
    (∀ p, gitCandidatePaths.find? (fun q => !fs.statOk q) = some p →
      FindGitExe fs = .ok p ∧ fs.statOk p = false)
    ∧ ((∀ p ∈ gitCandidatePaths, fs.statOk p = true) →
      FindGitExe fs = .error "git.exe not found")
    ∧ (FindGitExe fs = .error "git.exe not found" →
      ∀ p ∈ gitCandidatePaths, fs.statOk p = true) := by
  have hunf : FindGitExe fs =
      match gitCandidatePaths.find? (fun q => !fs.statOk q) with
      | some p => .ok p
      | none => .error "git.exe not found" := by
    rw [FindGitExe, h, findGitLoop_spec]
  refine ⟨?_, ?_, ?_⟩
  · intro p hp
    have hs := List.find?_some hp
    simp only [Bool.not_eq_true'] at hs
    rw [hunf, hp]
    exact ⟨rfl, hs⟩
  · intro hall
    have hnone : gitCandidatePaths.find? (fun q => !fs.statOk q) = none := by
      rw [List.find?_eq_none]
      intro p hp
      simp [hall p hp]
    rw [hunf, hnone]
  · intro herr p hp
    by_contra hcon
    have hfind : ∃ q, gitCandidatePaths.find? (fun q => !fs.statOk q) = some q := by
      have : ¬ gitCandidatePaths.find? (fun q => !fs.statOk q) = none := by
        intro hnone
        rw [List.find?_eq_none] at hnone
        exact (hnone p hp) (by simp [Bool.eq_false_iff.mpr hcon])
      cases hf : gitCandidatePaths.find? (fun q => !fs.statOk q) with
      | none => exact absurd hf this
      | some q => exact ⟨q, rfl⟩
    obtain ⟨q, hq⟩ := hfind
    rw [hunf, hq] at herr
    exact Except.noConfusion herr

/-- Filesystem where `git.exe` is absent from the PATH and only the second
candidate path does not exist. -/
def c9FS : GitFS where
  lookPathResult := none
  statOk := fun p => p ≠ "C:\\Program Files\\Git\\cmd\\git.exe"

/-- Filesystem where `git.exe` is absent from the PATH and all three candidate
paths exist. -/
def c9FSAll : GitFS where
  lookPathResult := none
  statOk := fun _ => true

theorem find_git_exe_C9_witness :
    (FindGitExe c9FS = .ok "C:\\Program Files\\Git\\cmd\\git.exe" ∧
      c9FS.statOk "C:\\Program Files\\Git\\cmd\\git.exe" = false)
    ∧ FindGitExe c9FSAll = .error "git.exe not found" :=
  ⟨(find_git_exe_C9 c9FS rfl).1 "C:\\Program Files\\Git\\cmd\\git.exe" (by decide),
   (find_git_exe_C9 c9FSAll rfl).2.1 (by decide)⟩

theorem restartLoop_cases (evs : List LoopEvent) :
    restartLoop evs = none ∨ restartLoop evs = some "Timed out waiting for shutdown" := by
  induction evs with
  | nil => exact Or.inl rfl
  | cons e rest ih =>
    cases e with
    | tick => exact ih
    | timedOut => exact Or.inr rfl

/-- C10: `RestartComputer` never returns nil: once the lock file is created,
its only loop exit is the timeout branch returning "Timed out waiting for
shutdown" (the trailing return nil after the for-select is unreachable);
consequently `ApplyPolicy` returns nil only when the policy lock file already
exists at entry, so every run that actually applies policies returns a
non-nil error. -/
theorem apply_policy_C10 :
    (∀ w : RestartWorld, RestartComputer w ≠ some (.ok ()))
    ∧ (∀ w : RestartWorld, w.createLockResult = .ok () →
        RestartComputer w = none ∨
        RestartComputer w = some (.error "Timed out waiting for shutdown"))
    ∧ (∀ w : PolicyWorld, ApplyPolicy w = some (.ok ()) → w.lockFileExists = true) := by
  have hnever : ∀ w : RestartWorld, RestartComputer w ≠ some (.ok ()) := by
    intro w hok
    rw [RestartComputer] at hok
    cases hc : w.createLockResult with
    | error e => rw [hc] at hok; exact Except.noConfusion (Option.some.inj hok)
    | ok u =>
      rw [hc] at hok
      cases hr : restartLoop w.loopEvents with
      | none => rw [hr] at hok; exact Option.noConfusion hok
      | some m => rw [hr] at hok; exact Except.noConfusion (Option.some.inj hok)
  refine ⟨hnever, ?_, ?_⟩
  · intro w hc
    rw [RestartComputer, hc]
    rcases restartLoop_cases w.loopEvents with hr | hr <;> rw [hr]
    · exact Or.inl rfl
    · exact Or.inr rfl
  · intro w hok
    by_cases hl : w.lockFileExists
    · exact hl
    · exfalso
      rw [ApplyPolicy, if_neg hl] at hok
      cases ht : w.tempDirResult with
      | error e => rw [ht] at hok; exact Except.noConfusion (Option.some.inj hok)
      | ok td =>
        rw [ht] at hok
        cases hw : w.waitNetworkResult with
        | error e => rw [hw] at hok; exact Except.noConfusion (Option.some.inj hok)
        | ok u =>
          rw [hw] at hok
          cases hcl : w.cloneResult with
          | error e => rw [hcl] at hok; exact Except.noConfusion (Option.some.inj hok)
          | ok rd =>
            rw [hcl] at hok
            cases hst : w.policyPathStatErr with
            | some e => rw [hst] at hok; exact Except.noConfusion (Option.some.inj hok)
            | none =>
              rw [hst] at hok
              cases hrl : w.runLGPOResult with
              | error e => rw [hrl] at hok; exact Except.noConfusion (Option.some.inj hok)
              | ok u2 =>
                rw [hrl] at hok
                cases hcr : w.createLockResult with
                | error e => rw [hcr] at hok; exact Except.noConfusion (Option.some.inj hok)
                | ok u3 =>
                  rw [hcr] at hok
                  cases hrc : RestartComputer w.restart with
                  | none => rw [hrc] at hok; exact Option.noConfusion hok
                  | some r =>
                    cases r with
                    | error e => rw [hrc] at hok; exact Except.noConfusion (Option.some.inj hok)
                    | ok u4 => exact hnever w.restart (by rw [hrc])

/-- A policy world whose lock file exists at entry. -/
def c10Locked : PolicyWorld where
  lockFileExists := true
  tempDirResult := .ok "C:\\tmp\\LGPO-1"
  waitNetworkResult := .ok ()
  cloneResult := .ok "C:\\tmp\\LGPO-1\\lgpo-test"
  policyPathStatErr := none
  runLGPOResult := .ok ()
  createLockResult := .ok ()
  restart := { createLockResult := .ok (), loopEvents := [.tick, .tick, .timedOut] }

theorem apply_policy_C10_witness :
    c10Locked.lockFileExists = true
    ∧ RestartComputer c10Locked.restart ≠ some (.ok ())
    ∧ (RestartComputer c10Locked.restart = none ∨
        RestartComputer c10Locked.restart = some (.error "Timed out waiting for shutdown")) :=
  ⟨apply_policy_C10.2.2 c10Locked rfl,
   apply_policy_C10.1 c10Locked.restart,
   apply_policy_C10.2.1 c10Locked.restart rfl⟩
